import Mathlib

/-!
Verification of the screening scoring engine of the PsychologicalScreening
repository (SRQ-20, SRQ-29, DASS-42).

Shallow embedding conventions:
* Python dictionaries of form answers (keys "srq_1".."srq_29", "dass_1".."dass_42")
  are modelled as association lists keyed by the integer item number that the
  source parses out of the key (int(key.split("_")[1]) for SRQ, the i of
  f"dass_{i}" for DASS).  The startswith("srq_") guard of the source is always
  true on such keys and is dropped by the key model.
* Python lists of positional answers are modelled as Lean lists.
* The dict.get(key, default) accesses are modelled as List.lookup with getD.
* Severity and interpretation labels are kept as the literal strings of the
  source.
-/

/-- Answer dictionary of an SRQ form: the Nat key models the item number i of
the Python key "srq_i"; the Bool is the checkbox answer. -/
abbrev SrqAnswers := List (Nat × Bool)

/-- Answer dictionary of the DASS-42 form: the Nat key models the item number i
of the Python key "dass_i"; the value is the selected 0..3 score. -/
abbrev DassAnswers := List (Nat × Nat)

/-! ## src/utils/screening_tools.py -/

/-- src/utils/screening_tools.py lines 52-55, calculate_srq20_score: counts the
True values whose key "srq_i" has i <= 20. -/
def calculate_srq20_score (answers : SrqAnswers) : Nat :=
  answers.countP (fun kv => kv.2 && decide (kv.1 ≤ 20))

/-- src/utils/screening_tools.py lines 57-60, calculate_srq29_score: counts all
True values of the answer dictionary. -/
def calculate_srq29_score (answers : SrqAnswers) : Nat :=
  answers.countP (fun kv => kv.2)

/-- Subscale score dictionary returned by get_srq29_subscale_scores
(src/utils/screening_tools.py lines 76-81). -/
structure Srq29Subscales where
  anxiety_depression : Nat
  psychotic : Nat
  epileptic : Nat
  alcohol : Nat
deriving DecidableEq

/-- src/utils/screening_tools.py lines 62-81, get_srq29_subscale_scores:
anxiety_depression counts True answers with 1 <= i <= 20, psychotic with
21 <= i <= 24, epileptic is 1 exactly when answers.get("srq_25", False) is
True, alcohol counts True answers with 26 <= i <= 29. -/
def get_srq29_subscale_scores (answers : SrqAnswers) : Srq29Subscales :=
  { anxiety_depression :=
      answers.countP (fun kv => kv.2 && decide (1 ≤ kv.1) && decide (kv.1 ≤ 20))
    psychotic :=
      answers.countP (fun kv => kv.2 && decide (21 ≤ kv.1) && decide (kv.1 ≤ 24))
    epileptic := if (answers.lookup 25).getD false then 1 else 0
    alcohol :=
      answers.countP (fun kv => kv.2 && decide (26 ≤ kv.1) && decide (kv.1 ≤ 29)) }

/-- src/utils/screening_tools.py lines 83-133, get_dass42_questions: the
canonical DASS-42 question bank, a list of (category, text) pairs: 14
Depression items, then 14 Anxiety items, then 14 Stress items. -/
def get_dass42_questions : List (String × String) :=
  [("Depression", "I couldn\x27t seem to experience any positive feeling at all"),
   ("Depression", "I found it difficult to work up the initiative to do things"),
   ("Depression", "I felt that I had nothing to look forward to"),
   ("Depression", "I felt sad and depressed"),
   ("Depression", "I was unable to become enthusiastic about anything"),
   ("Depression", "I felt I wasn\x27t worth much as a person"),
   ("Depression", "I felt that life was meaningless"),
   ("Depression", "I couldn\x27t seem to get any enjoyment out of the things I did"),
   ("Depression", "I felt down-hearted and blue"),
   ("Depression", "I was unable to become enthusiastic about anything"),
   ("Depression", "I felt I wasn\x27t worth much as a person"),
   ("Depression", "I felt that life wasn\x27t worthwhile"),
   ("Depression", "I couldn\x27t seem to experience any positive feeling at all"),
   ("Depression", "I was unable to experience any positive feeling at all"),
   ("Anxiety", "I was aware of dryness of my mouth"),
   ("Anxiety", "I experienced breathing difficulty"),
   ("Anxiety", "I experienced trembling (e.g., in the hands)"),
   ("Anxiety", "I was worried about situations in which I might panic and make a fool of myself"),
   ("Anxiety", "I felt I was close to panic"),
   ("Anxiety", "I was aware of the action of my heart in the absence of physical exertion"),
   ("Anxiety", "I felt scared without any good reason"),
   ("Anxiety", "I had a feeling of shakiness"),
   ("Anxiety", "I was worried about situations in which I might panic"),
   ("Anxiety", "I found myself in situations that made me so anxious I was most relieved when they ended"),
   ("Anxiety", "I felt terrified"),
   ("Anxiety", "I felt afraid that I would be \x27thrown\x27 by some trivial but unfamiliar task"),
   ("Anxiety", "I felt afraid"),
   ("Anxiety", "I had feelings of panic"),
   ("Stress", "I found it hard to wind down"),
   ("Stress", "I tended to over-react to situations"),
   ("Stress", "I felt that I was using a lot of nervous energy"),
   ("Stress", "I found myself getting agitated"),
   ("Stress", "I found it difficult to relax"),
   ("Stress", "I was intolerant of anything that kept me from getting on with what I was doing"),
   ("Stress", "I felt that I was rather touchy"),
   ("Stress", "I found myself getting upset by quite trivial things"),
   ("Stress", "I found it hard to calm down after something upset me"),
   ("Stress", "I found it difficult to tolerate interruptions to what I was doing"),
   ("Stress", "I was in a state of nervous tension"),
   ("Stress", "I was unable to become patient when I was being delayed"),
   ("Stress", "I found myself getting upset rather easily"),
   ("Stress", "I found myself getting impatient when I was delayed in any way")]

/-- src/utils/screening_tools.py line 143: the hardcoded 0-based depression
index list of calculate_dass42_scores. -/
def depression_indices : List Nat := [0, 1, 2, 3, 4, 5, 6, 7, 8, 9, 10, 11, 12, 13]

/-- src/utils/screening_tools.py line 144: the hardcoded 0-based anxiety index
list of calculate_dass42_scores. -/
def anxiety_indices : List Nat := [14, 15, 16, 17, 18, 19, 20, 21, 22, 23, 24, 25, 26, 27]

/-- src/utils/screening_tools.py line 145: the hardcoded 0-based stress index
list of calculate_dass42_scores. -/
def stress_indices : List Nat := [28, 29, 30, 31, 32, 33, 34, 35, 36, 37, 38, 39, 40, 41]

/-- Loop body of calculate_dass42_scores (src/utils/screening_tools.py lines
147-159): get is the getter i => answers.get(f"dass_{i}", 0); the accumulator
is the (depression, anxiety, stress) running total. -/
def dassStep (get : Nat → Nat) (acc : Nat × Nat × Nat) (i : Nat) : Nat × Nat × Nat :=
  let score := get i
  let idx := i - 1
  if idx ∈ depression_indices then (acc.1 + score, acc.2.1, acc.2.2)
  else if idx ∈ anxiety_indices then (acc.1, acc.2.1 + score, acc.2.2)
  else if idx ∈ stress_indices then (acc.1, acc.2.1, acc.2.2 + score)
  else acc

/-- src/utils/screening_tools.py lines 135-161, calculate_dass42_scores: for i
in range(1, 43) reads answers.get(f"dass_{i}", 0) (a missing key scores 0) and
adds it to the subscale whose index list contains i - 1.  Returns the triple
(depression_score, anxiety_score, stress_score). -/
def calculate_dass42_scores (answers : DassAnswers) : Nat × Nat × Nat :=
  (List.range' 1 42).foldl (dassStep (fun i => (answers.lookup i).getD 0)) (0, 0, 0)

/-! ## src/api/resources/screening_tools.py -/

/-- src/api/resources/screening_tools.py lines 298-307,
get_srq20_interpretation. -/
def get_srq20_interpretation (score : Nat) : String :=
  if score ≤ 4 then "No significant mental distress"
  else if score ≤ 7 then "Mild mental distress"
  else if score ≤ 10 then "Moderate mental distress"
  else "Severe mental distress"

/-- Subscale dictionary built by the API calculate_srq29_subscales
(src/api/resources/screening_tools.py lines 314-319); the epilepsy field is
spelled as in that source. -/
structure ApiSrq29Subscales where
  anxiety_depression : Nat
  psychotic : Nat
  epilepsy : Nat
  alcohol : Nat
deriving DecidableEq

deriving instance DecidableEq for Except

/-- src/api/resources/screening_tools.py lines 309-319,
calculate_srq29_subscales over a positional answer list: returns the error
dictionary when fewer than 29 answers are supplied, else counts True answers
with 0-based index i < 20 (anxiety_depression), 20 <= i <= 23 (psychotic),
reads answers[24] (epilepsy, in bounds by the length guard, modelled with
getD), and counts i >= 25 (alcohol). -/
def calculate_srq29_subscales (answers : List Bool) : Except String ApiSrq29Subscales :=
  if answers.length < 29 then Except.error ("Insufficient answers for SRQ-29")
  else Except.ok
    { anxiety_depression := answers.enum.countP (fun ia => ia.2 && decide (ia.1 < 20))
      psychotic := answers.enum.countP (fun ia => ia.2 && decide (20 ≤ ia.1) && decide (ia.1 ≤ 23))
      epilepsy := if answers.getD 24 false then 1 else 0
      alcohol := answers.enum.countP (fun ia => ia.2 && decide (25 ≤ ia.1)) }

/-- Interpretation dictionary returned by get_srq29_interpretation
(src/api/resources/screening_tools.py lines 321-356). -/
structure Srq29Interpretations where
  anxiety_depression : String
  psychotic : String
  epilepsy : String
  alcohol : String
deriving DecidableEq

/-- src/api/resources/screening_tools.py lines 321-356,
get_srq29_interpretation: the anxiety_depression thresholds are those of
get_srq20_interpretation; the source reads each subscale with
subscale_scores.get(name, 0), modelled here by the structure fields. -/
def get_srq29_interpretation (subscale_scores : ApiSrq29Subscales) : Srq29Interpretations :=
  { anxiety_depression :=
      if subscale_scores.anxiety_depression ≤ 4 then "No significant mental distress"
      else if subscale_scores.anxiety_depression ≤ 7 then "Mild mental distress"
      else if subscale_scores.anxiety_depression ≤ 10 then "Moderate mental distress"
      else "Severe mental distress"
    psychotic :=
      if subscale_scores.psychotic = 0 then "No psychotic symptoms indicated"
      else "Psychotic symptoms indicated - requires specialist assessment"
    epilepsy :=
      if subscale_scores.epilepsy = 0 then "No epileptic seizures indicated"
      else "Epileptic seizures indicated - requires medical assessment"
    alcohol :=
      if subscale_scores.alcohol = 0 then "No problematic alcohol use indicated"
      else if subscale_scores.alcohol = 1 then "Possible problematic alcohol use"
      else "Problematic alcohol use indicated - requires specialist assessment" }

/-- Subscale dictionary built by the API calculate_dass42_subscales
(src/api/resources/screening_tools.py lines 374-378). -/
structure DassSubscales where
  depression : Nat
  anxiety : Nat
  stress : Nat
deriving DecidableEq

/-- src/api/resources/screening_tools.py lines 357-379,
calculate_dass42_subscales: zips the positional answers with the question
list and adds each answer to the subscale named by the category of its
question.  The source tests whether the lowercased category contains
"depression" / "anxiety" / "stress" as a substring; on the category strings of
the canonical question bank ("Depression", "Anxiety", "Stress") that test is
equivalent to equality with the capitalised name, which is how it is modelled
here (String functions such as toLower do not reduce in the kernel). -/
def calculate_dass42_subscales (answers : List Nat) (questions : List (String × String)) : DassSubscales :=
  (answers.zip questions).foldl
    (fun acc aq =>
      let score := aq.1
      let category := aq.2.1
      if category == "Depression" then { acc with depression := acc.depression + score }
      else if category == "Anxiety" then { acc with anxiety := acc.anxiety + score }
      else if category == "Stress" then { acc with stress := acc.stress + score }
      else acc)
    { depression := 0, anxiety := 0, stress := 0 }

/-- Interpretation dictionary returned by get_dass42_interpretation
(src/api/resources/screening_tools.py lines 381-421). -/
structure DassInterpretations where
  depression : String
  anxiety : String
  stress : String
deriving DecidableEq

/-- src/api/resources/screening_tools.py lines 381-421,
get_dass42_interpretation: the three per-subscale severity threshold chains. -/
def get_dass42_interpretation (subscale_scores : DassSubscales) : DassInterpretations :=
  { depression :=
      if subscale_scores.depression ≤ 9 then "Normal"
      else if subscale_scores.depression ≤ 13 then "Mild"
      else if subscale_scores.depression ≤ 20 then "Moderate"
      else if subscale_scores.depression ≤ 27 then "Severe"
      else "Extremely Severe"
    anxiety :=
      if subscale_scores.anxiety ≤ 7 then "Normal"
      else if subscale_scores.anxiety ≤ 9 then "Mild"
      else if subscale_scores.anxiety ≤ 14 then "Moderate"
      else if subscale_scores.anxiety ≤ 19 then "Severe"
      else "Extremely Severe"
    stress :=
      if subscale_scores.stress ≤ 14 then "Normal"
      else if subscale_scores.stress ≤ 18 then "Mild"
      else if subscale_scores.stress ≤ 25 then "Moderate"
      else if subscale_scores.stress ≤ 33 then "Severe"
      else "Extremely Severe" }

/-! ## src/pages/3_Screening_Tools.py (form submission code in main) -/

/-- src/pages/3_Screening_Tools.py line 131: the submitted SRQ-20 score is
the count of True values of the answer dictionary. -/
def page_srq20_score (answers : SrqAnswers) : Nat :=
  answers.countP (fun kv => kv.2)

/-- src/pages/3_Screening_Tools.py line 138: the referral_needed flag stored
with the SRQ-20 screening data is score >= 8. -/
def page_srq20_referral_needed (answers : SrqAnswers) : Bool :=
  decide (8 ≤ page_srq20_score answers)

/-- src/pages/3_Screening_Tools.py lines 230-231: the referral_needed flag
stored with the SRQ-29 screening data. -/
def page_srq29_referral_needed (answers : SrqAnswers) : Bool :=
  decide (10 ≤ calculate_srq29_score answers) ||
  decide (1 ≤ (get_srq29_subscale_scores answers).psychotic) ||
  decide (1 ≤ (get_srq29_subscale_scores answers).epileptic) ||
  decide (2 ≤ (get_srq29_subscale_scores answers).alcohol)

/-- src/pages/3_Screening_Tools.py lines 298-304: the referral decision
displayed to the user after an SRQ-29 submission (note anxiety_depression >= 8
in place of the stored total_score >= 10, and epileptic == 1). -/
def page_srq29_displayed_referral (answers : SrqAnswers) : Bool :=
  decide (8 ≤ (get_srq29_subscale_scores answers).anxiety_depression) ||
  decide (1 ≤ (get_srq29_subscale_scores answers).psychotic) ||
  decide ((get_srq29_subscale_scores answers).epileptic = 1) ||
  decide (2 ≤ (get_srq29_subscale_scores answers).alcohol)

/-- src/pages/3_Screening_Tools.py lines 373-381: the depression severity
chain (initialised "Normal", overridden by the first matching >= test). -/
def page_depression_severity (score : Nat) : String :=
  if 28 ≤ score then "Extremely Severe"
  else if 21 ≤ score then "Severe"
  else if 14 ≤ score then "Moderate"
  else if 10 ≤ score then "Mild"
  else "Normal"

/-- src/pages/3_Screening_Tools.py lines 383-391: the anxiety severity chain. -/
def page_anxiety_severity (score : Nat) : String :=
  if 20 ≤ score then "Extremely Severe"
  else if 15 ≤ score then "Severe"
  else if 10 ≤ score then "Moderate"
  else if 8 ≤ score then "Mild"
  else "Normal"

/-- src/pages/3_Screening_Tools.py lines 393-401: the stress severity chain. -/
def page_stress_severity (score : Nat) : String :=
  if 34 ≤ score then "Extremely Severe"
  else if 26 ≤ score then "Severe"
  else if 19 ≤ score then "Moderate"
  else if 15 ≤ score then "Mild"
  else "Normal"

/-- src/pages/3_Screening_Tools.py lines 403-405: referral_needed is True when
any of the three severities is in the list Moderate / Severe / Extremely
Severe, computed from the calculate_dass42_scores of the answer dictionary
(lines 370, 408-418 store it with the screening data). -/
def page_dass_referral_needed (answers : DassAnswers) : Bool :=
  [page_depression_severity (calculate_dass42_scores answers).1,
   page_anxiety_severity (calculate_dass42_scores answers).2.1,
   page_stress_severity (calculate_dass42_scores answers).2.2].any
    (fun severity => (["Moderate", "Severe", "Extremely Severe"] : List String).contains severity)

/-! ## Form encodings and specification-side counts -/

/-- The answer dictionary submitted by an n-item SRQ form: key i+1 bound to
the answer of item i+1 (the form loops i = 1..n creating key "srq_i",
src/pages/3_Screening_Tools.py lines 121-125 and 180-212). -/
def srqForm (n : Nat) (a : Fin n → Bool) : SrqAnswers :=
  (List.finRange n).map (fun i => (i.1 + 1, a i))

/-- The answer dictionary submitted by the DASS-42 form: key i+1 bound to the
0..3 value of item i+1 (src/pages/3_Screening_Tools.py lines 342-364). -/
def dassForm (a : Fin 42 → Nat) : DassAnswers :=
  (List.finRange 42).map (fun i => (i.1 + 1, a i))

/-- Specification-side total: the number of items answered True. -/
def trueCount {n : Nat} (a : Fin n → Bool) : Nat :=
  (List.finRange n).countP (fun i => a i)

/-- Specification-side subscale count: the number of items answered True whose
1-based item number lies in lo..hi. -/
def trueCountIn (lo hi : Nat) {n : Nat} (a : Fin n → Bool) : Nat :=
  ((List.finRange n).filter
    (fun i => decide (lo ≤ i.1 + 1) && decide (i.1 + 1 ≤ hi))).countP (fun i => a i)

/-- A SRQ-29 answer vector with only item 21 (0-based index 20) True. -/
def srq29Item21Only : Fin 29 → Bool := fun i => decide (i.1 = 20)

/-- A SRQ-29 / SRQ-20 style answer vector with the first 8 items True. -/
def srq29First8 : Fin 29 → Bool := fun i => decide (i.1 < 8)

/-- The SRQ-20 end-to-end example vector: 8 True answers then 12 False. -/
def srq20First8 : Fin 20 → Bool := fun i => decide (i.1 < 8)

/-- A DASS-42 answer vector with depression total 5, anxiety total 5 and
stress total 20 (items 1-2 score 3+2, items 15-16 score 3+2, items 29-34
score 3 each and item 35 scores 2). -/
def dassExample : Fin 42 → Nat := fun i =>
  if i.1 = 0 then 3 else if i.1 = 1 then 2
  else if i.1 = 14 then 3 else if i.1 = 15 then 2
  else if 28 ≤ i.1 ∧ i.1 ≤ 33 then 3 else if i.1 = 34 then 2 else 0

/-- The completion of a DASS answer dictionary: every key 1..42 bound, a key
missing from the original bound to 0. -/
def completeDass (answers : DassAnswers) : DassAnswers :=
  (List.range' 1 42).map (fun i => (i, (answers.lookup i).getD 0))

/-! ## Helper lemmas -/

/-- Counting over the encoded form dictionary is counting over the item
indices. -/
lemma countP_srqForm (n : Nat) (a : Fin n → Bool) (p : Nat × Bool → Bool) :
    (srqForm n a).countP p = (List.finRange n).countP (fun i => p (i.1 + 1, a i)) := by
  unfold srqForm
  rw [List.countP_map]
  rfl

/-- trueCountIn as a single countP over the item indices. -/
lemma trueCountIn_eq_countP (lo hi n : Nat) (a : Fin n → Bool) :
    trueCountIn lo hi a =
      (List.finRange n).countP
        (fun i => a i && (decide (lo ≤ i.1 + 1) && decide (i.1 + 1 ≤ hi))) := by
  unfold trueCountIn
  rw [List.countP_filter]

/-- The key-range counts of the source equal the specification-side range
counts on a fully keyed form dictionary. -/
lemma srqForm_count_range (n lo hi : Nat) (a : Fin n → Bool) :
    (srqForm n a).countP (fun kv => kv.2 && decide (lo ≤ kv.1) && decide (kv.1 ≤ hi)) =
      trueCountIn lo hi a := by
  rw [countP_srqForm, trueCountIn_eq_countP]
  congr 1
  funext i
  simp [Bool.and_assoc]

lemma srq29_ad_eq (a : Fin 29 → Bool) :
    (get_srq29_subscale_scores (srqForm 29 a)).anxiety_depression = trueCountIn 1 20 a := by
  simp only [get_srq29_subscale_scores]
  exact srqForm_count_range 29 1 20 a

lemma srq29_psychotic_eq (a : Fin 29 → Bool) :
    (get_srq29_subscale_scores (srqForm 29 a)).psychotic = trueCountIn 21 24 a := by
  simp only [get_srq29_subscale_scores]
  exact srqForm_count_range 29 21 24 a

lemma srq29_alcohol_eq (a : Fin 29 → Bool) :
    (get_srq29_subscale_scores (srqForm 29 a)).alcohol = trueCountIn 26 29 a := by
  simp only [get_srq29_subscale_scores]
  exact srqForm_count_range 29 26 29 a

lemma trueCountIn_25 (a : Fin 29 → Bool) :
    trueCountIn 25 25 a = if a 24 then 1 else 0 := by
  unfold trueCountIn
  rw [show (List.finRange 29).filter
      (fun i => decide (25 ≤ i.1 + 1) && decide (i.1 + 1 ≤ 25)) = [(24 : Fin 29)] from by decide]
  cases h : a 24 <;> simp [List.countP_cons, h]

lemma srq29_epileptic_eq (a : Fin 29 → Bool) :
    (get_srq29_subscale_scores (srqForm 29 a)).epileptic = trueCountIn 25 25 a := by
  rw [trueCountIn_25]
  rfl

lemma srq29_total_eq (n : Nat) (a : Fin n → Bool) :
    calculate_srq29_score (srqForm n a) = trueCount a := by
  unfold calculate_srq29_score trueCount
  rw [countP_srqForm]

lemma page_srq20_score_eq (n : Nat) (a : Fin n → Bool) :
    page_srq20_score (srqForm n a) = trueCount a := by
  unfold page_srq20_score trueCount
  rw [countP_srqForm]

/-- Four disjoint counts adding up pointwise add up globally. -/
lemma countP_partition_four {α : Type} (p1 p2 p3 p4 q : α → Bool) :
    ∀ l : List α,
      (∀ x ∈ l, (if q x then 1 else 0) =
        (if p1 x then 1 else 0) + (if p2 x then 1 else 0) +
        (if p3 x then 1 else 0) + (if p4 x then 1 else 0)) →
      l.countP q = l.countP p1 + l.countP p2 + l.countP p3 + l.countP p4 := by
  intro l
  induction l with
  | nil => intro _; simp
  | cons x t ih =>
    intro h
    simp only [List.countP_cons]
    have hx := h x (by simp)
    have ht := ih (fun y hy => h y (by simp [hy]))
    omega

/-- The four positional SRQ-29 subscale ranges partition the 29 items. -/
lemma srq29_sum_eq (a : Fin 29 → Bool) :
    trueCountIn 1 20 a + trueCountIn 21 24 a + trueCountIn 25 25 a + trueCountIn 26 29 a =
      trueCount a := by
  rw [trueCountIn_eq_countP, trueCountIn_eq_countP, trueCountIn_eq_countP, trueCountIn_eq_countP]
  unfold trueCount
  refine (countP_partition_four _ _ _ _ _ (List.finRange 29) ?_).symm
  intro x _
  have hx := x.2
  cases hax : a x <;> simp [hax] <;> split_ifs <;> omega

lemma trueCount_le (n : Nat) (a : Fin n → Bool) : trueCount a ≤ n := by
  unfold trueCount
  calc (List.finRange n).countP (fun i => a i) ≤ (List.finRange n).length :=
        List.countP_le_length _
    _ = n := List.length_finRange n

/-- Enumerating a positionally encoded answer vector pairs each 0-based index
with its answer. -/
lemma enum_map_finRange29 (a : Fin 29 → Bool) :
    ((List.finRange 29).map a).enum = (List.finRange 29).map (fun i => (i.1, a i)) := by
  rw [List.enum_map,
    show (List.finRange 29).enum = (List.finRange 29).map (fun i => (i.1, i)) from by decide,
    List.map_map]
  rfl

lemma api_srq29_ad_eq (a : Fin 29 → Bool) :
    ((List.finRange 29).map a).enum.countP (fun ia => ia.2 && decide (ia.1 < 20)) =
      trueCountIn 1 20 a := by
  rw [enum_map_finRange29, List.countP_map, trueCountIn_eq_countP]
  congr 1
  funext i
  show (a i && decide (i.1 < 20)) =
    (a i && (decide (1 ≤ i.1 + 1) && decide (i.1 + 1 ≤ 20)))
  rw [← Bool.decide_and]
  refine congrArg (fun b => a i && b) ?_
  rw [decide_eq_decide]
  omega

lemma api_srq29_psychotic_eq (a : Fin 29 → Bool) :
    ((List.finRange 29).map a).enum.countP
        (fun ia => ia.2 && decide (20 ≤ ia.1) && decide (ia.1 ≤ 23)) =
      trueCountIn 21 24 a := by
  rw [enum_map_finRange29, List.countP_map, trueCountIn_eq_countP]
  congr 1
  funext i
  show (a i && decide (20 ≤ i.1) && decide (i.1 ≤ 23)) =
    (a i && (decide (21 ≤ i.1 + 1) && decide (i.1 + 1 ≤ 24)))
  rw [Bool.and_assoc, ← Bool.decide_and, ← Bool.decide_and]
  refine congrArg (fun b => a i && b) ?_
  rw [decide_eq_decide]
  omega

lemma api_srq29_alcohol_eq (a : Fin 29 → Bool) :
    ((List.finRange 29).map a).enum.countP (fun ia => ia.2 && decide (25 ≤ ia.1)) =
      trueCountIn 26 29 a := by
  rw [enum_map_finRange29, List.countP_map, trueCountIn_eq_countP]
  refine List.countP_congr (fun i _ => ?_)
  show (a i && decide (25 ≤ i.1)) = true ↔ _
  have hi := i.2
  cases a i <;> simp <;> omega

/-- The API subscale computation on a full 29-answer vector produces exactly
the positional range counts. -/
lemma api_srq29_subscales_eq (a : Fin 29 → Bool) :
    calculate_srq29_subscales ((List.finRange 29).map a) =
      Except.ok
        { anxiety_depression := trueCountIn 1 20 a
          psychotic := trueCountIn 21 24 a
          epilepsy := trueCountIn 25 25 a
          alcohol := trueCountIn 26 29 a } := by
  unfold calculate_srq29_subscales
  rw [if_neg (by simp)]
  refine congrArg Except.ok ?_
  simp only [ApiSrq29Subscales.mk.injEq]
  refine ⟨api_srq29_ad_eq a, api_srq29_psychotic_eq a, ?_, api_srq29_alcohol_eq a⟩
  rw [trueCountIn_25]
  rfl

/-- Folding the DASS loop body over equal getters gives equal results. -/
lemma foldl_dassStep_congr (g1 g2 : Nat → Nat) :
    ∀ (l : List Nat) (acc : Nat × Nat × Nat), (∀ i ∈ l, g1 i = g2 i) →
      l.foldl (dassStep g1) acc = l.foldl (dassStep g2) acc := by
  intro l
  induction l with
  | nil => intro acc _; rfl
  | cons x t ih =>
    intro acc h
    simp only [List.foldl_cons]
    rw [show dassStep g1 acc x = dassStep g2 acc x from by
      unfold dassStep; rw [h x (by simp)]]
    exact ih _ (fun i hi => h i (by simp [hi]))

lemma range'_1_42 :
    List.range' 1 42 =
      [1, 2, 3, 4, 5, 6, 7, 8, 9, 10, 11, 12, 13, 14, 15, 16, 17, 18, 19, 20, 21,
       22, 23, 24, 25, 26, 27, 28, 29, 30, 31, 32, 33, 34, 35, 36, 37, 38, 39, 40,
       41, 42] := by decide

/-- Looking up any of the 42 item keys in the completed dictionary gives the
defaulted lookup of the original dictionary. -/
lemma completeDass_lookup (answers : DassAnswers) :
    ∀ i ∈ List.range' 1 42,
      ((completeDass answers).lookup i).getD 0 = (answers.lookup i).getD 0 := by
  intro i hi
  rw [range'_1_42] at hi
  fin_cases hi <;> rfl

/-! ## Claim theorems -/

/-- C1: the DASS-42 interpretation assigns severity labels by the exact bands
Depression 0-9 Normal, 10-13 Mild, 14-20 Moderate, 21-27 Severe, at least 28
Extremely Severe; Anxiety 0-7 / 8-9 / 10-14 / 15-19 / at least 20; Stress
0-14 / 15-18 / 19-25 / 26-33 / at least 34 -- in the API interpretation
function and in the page severity chains alike -- with the stated boundary
values for Depression. -/
theorem claim_C1_dass42_interpretation_bands :
    (∀ s : DassSubscales,
      ((get_dass42_interpretation s).depression = "Normal" ↔ s.depression ≤ 9) ∧
      ((get_dass42_interpretation s).depression = "Mild" ↔
        10 ≤ s.depression ∧ s.depression ≤ 13) ∧
      ((get_dass42_interpretation s).depression = "Moderate" ↔
        14 ≤ s.depression ∧ s.depression ≤ 20) ∧
      ((get_dass42_interpretation s).depression = "Severe" ↔
        21 ≤ s.depression ∧ s.depression ≤ 27) ∧
      ((get_dass42_interpretation s).depression = "Extremely Severe" ↔ 28 ≤ s.depression) ∧
      ((get_dass42_interpretation s).anxiety = "Normal" ↔ s.anxiety ≤ 7) ∧
      ((get_dass42_interpretation s).anxiety = "Mild" ↔ 8 ≤ s.anxiety ∧ s.anxiety ≤ 9) ∧
      ((get_dass42_interpretation s).anxiety = "Moderate" ↔
        10 ≤ s.anxiety ∧ s.anxiety ≤ 14) ∧
      ((get_dass42_interpretation s).anxiety = "Severe" ↔
        15 ≤ s.anxiety ∧ s.anxiety ≤ 19) ∧
      ((get_dass42_interpretation s).anxiety = "Extremely Severe" ↔ 20 ≤ s.anxiety) ∧
      ((get_dass42_interpretation s).stress = "Normal" ↔ s.stress ≤ 14) ∧
      ((get_dass42_interpretation s).stress = "Mild" ↔ 15 ≤ s.stress ∧ s.stress ≤ 18) ∧
      ((get_dass42_interpretation s).stress = "Moderate" ↔
        19 ≤ s.stress ∧ s.stress ≤ 25) ∧
      ((get_dass42_interpretation s).stress = "Severe" ↔
        26 ≤ s.stress ∧ s.stress ≤ 33) ∧
      ((get_dass42_interpretation s).stress = "Extremely Severe" ↔ 34 ≤ s.stress) ∧
      page_depression_severity s.depression = (get_dass42_interpretation s).depression ∧
      page_anxiety_severity s.anxiety = (get_dass42_interpretation s).anxiety ∧
      page_stress_severity s.stress = (get_dass42_interpretation s).stress) ∧
    (page_depression_severity 9 = "Normal" ∧ page_depression_severity 10 = "Mild" ∧
     page_depression_severity 13 = "Mild" ∧ page_depression_severity 14 = "Moderate" ∧
     page_depression_severity 27 = "Severe" ∧
     page_depression_severity 28 = "Extremely Severe") := by
  constructor
  · intro s
    simp only [get_dass42_interpretation, page_depression_severity, page_anxiety_severity,
      page_stress_severity]
    refine ⟨?_, ?_, ?_, ?_, ?_, ?_, ?_, ?_, ?_, ?_, ?_, ?_, ?_, ?_, ?_, ?_, ?_, ?_⟩ <;>
      (split_ifs <;> first | rfl | omega | (simp_all <;> omega))
  · exact ⟨by decide, by decide, by decide, by decide, by decide, by decide⟩

/-- C2: the SRQ-20 interpretation is by the bands 0-4 no significant, 5-7
mild, 8-10 moderate, at least 11 severe mental distress, and the SRQ-29
anxiety_depression interpretation uses exactly the same function of its
subscale total. -/
theorem claim_C2_srq20_interpretation_bands :
    ∀ (total : Nat) (s : ApiSrq29Subscales),
      (get_srq20_interpretation total = "No significant mental distress" ↔ total ≤ 4) ∧
      (get_srq20_interpretation total = "Mild mental distress" ↔ 5 ≤ total ∧ total ≤ 7) ∧
      (get_srq20_interpretation total = "Moderate mental distress" ↔
        8 ≤ total ∧ total ≤ 10) ∧
      (get_srq20_interpretation total = "Severe mental distress" ↔ 11 ≤ total) ∧
      (get_srq29_interpretation s).anxiety_depression =
        get_srq20_interpretation s.anxiety_depression := by
  intro total s
  simp only [get_srq20_interpretation, get_srq29_interpretation]
  refine ⟨?_, ?_, ?_, ?_, ?_⟩ <;>
    (first | trivial | (split_ifs <;> first | rfl | omega | (simp_all <;> omega)))

/-- C3: the referral flag stored with the SRQ-29 screening data is true
exactly when the total count of True answers is at least 10, or the psychotic
range count (items 21-24) is at least 1, or the epileptic count (item 25) is
at least 1, or the alcohol range count (items 26-29) is at least 2; the
vector with only item 21 True triggers it. -/
theorem claim_C3_srq29_stored_referral :
    (∀ a : Fin 29 → Bool,
      (page_srq29_referral_needed (srqForm 29 a) = true ↔
        10 ≤ trueCount a ∨ 1 ≤ trueCountIn 21 24 a ∨ 1 ≤ trueCountIn 25 25 a ∨
          2 ≤ trueCountIn 26 29 a)) ∧
    page_srq29_referral_needed (srqForm 29 srq29Item21Only) = true := by
  constructor
  · intro a
    simp only [page_srq29_referral_needed, srq29_total_eq, srq29_psychotic_eq,
      srq29_epileptic_eq, srq29_alcohol_eq, Bool.or_eq_true, decide_eq_true_eq]
    tauto
  · decide

/-- C4: the stored SRQ-29 referral formula (total at least 10 OR subscale
triggers) and the displayed referral formula (anxiety_depression at least 8 OR
the same subscale triggers) disagree on some 29-answer vector: with the first
8 items True the stored flag is false but the displayed decision is true. -/
theorem claim_C4_srq29_referral_formulas_disagree :
    ∃ a : Fin 29 → Bool,
      page_srq29_referral_needed (srqForm 29 a) ≠
        page_srq29_displayed_referral (srqForm 29 a) :=
  ⟨srq29First8, by decide⟩

/-- C5 counterexample: scoring does not fail on a wrong-length answer
collection: the DASS-42 scorer on an empty dictionary returns (0, 0, 0), the
page SRQ-20 scorer on a 19-item form returns 19, and the API SRQ-29 subscale
computation accepts 30 answers (counting the extra answer into alcohol). -/
theorem claim_C5_counterexample :
    calculate_dass42_scores ([] : DassAnswers) = (0, 0, 0) ∧
    page_srq20_score (srqForm 19 (fun _ => true)) = 19 ∧
    calculate_srq29_subscales (List.replicate 30 true) =
      Except.ok
        { anxiety_depression := 20, psychotic := 4, epilepsy := 1, alcohol := 5 } :=
  ⟨by decide, by decide, by decide⟩

/-- C5 amended: the only answer-count check in the scoring code is the API
SRQ-29 lower-bound guard: with fewer than 29 answers calculate_srq29_subscales
returns the error value and no subscale scores. -/
theorem claim_C5_amended_srq29_length_guard :
    ∀ answers : List Bool, answers.length < 29 →
      calculate_srq29_subscales answers =
        Except.error ("Insufficient answers for SRQ-29") := by
  intro answers h
  unfold calculate_srq29_subscales
  rw [if_pos h]

/-- Witness for the amended C5 theorem at the empty answer list. -/
theorem claim_C5_amended_witness :
    ([] : List Bool).length < 29 ∧
      calculate_srq29_subscales ([] : List Bool) =
        Except.error ("Insufficient answers for SRQ-29") :=
  ⟨by decide, claim_C5_amended_srq29_length_guard [] (by decide)⟩

/-- C6: on a full 42-item DASS form the stored referral flag is true exactly
when at least one of the three severities is Moderate, Severe or Extremely
Severe; in particular depression 5 (Normal), anxiety 5 (Normal), stress 20
(Moderate) yields referral_needed true. -/
theorem claim_C6_dass42_referral_or :
    (∀ a : Fin 42 → Nat, (∀ i, a i ≤ 3) →
      (page_dass_referral_needed (dassForm a) = true ↔
        page_depression_severity (calculate_dass42_scores (dassForm a)).1 ∈
            (["Moderate", "Severe", "Extremely Severe"] : List String) ∨
        page_anxiety_severity (calculate_dass42_scores (dassForm a)).2.1 ∈
            (["Moderate", "Severe", "Extremely Severe"] : List String) ∨
        page_stress_severity (calculate_dass42_scores (dassForm a)).2.2 ∈
            (["Moderate", "Severe", "Extremely Severe"] : List String))) ∧
    (calculate_dass42_scores (dassForm dassExample) = (5, 5, 20) ∧
     page_depression_severity 5 = "Normal" ∧
     page_anxiety_severity 5 = "Normal" ∧
     page_stress_severity 20 = "Moderate" ∧
     page_dass_referral_needed (dassForm dassExample) = true) := by
  constructor
  · intro a _
    simp [page_dass_referral_needed]
  · exact ⟨by decide, by decide, by decide, by decide, by decide⟩

/-- Witness for C6 at the depression 5 / anxiety 5 / stress 20 example. -/
theorem claim_C6_witness :
    page_dass_referral_needed (dassForm dassExample) = true ↔
      page_depression_severity (calculate_dass42_scores (dassForm dassExample)).1 ∈
          (["Moderate", "Severe", "Extremely Severe"] : List String) ∨
      page_anxiety_severity (calculate_dass42_scores (dassForm dassExample)).2.1 ∈
          (["Moderate", "Severe", "Extremely Severe"] : List String) ∨
      page_stress_severity (calculate_dass42_scores (dassForm dassExample)).2.2 ∈
          (["Moderate", "Severe", "Extremely Severe"] : List String) :=
  claim_C6_dass42_referral_or.1 dassExample (by decide)

/-- C7: on a fully keyed 29-item form the four SRQ-29 subscale totals are the
counts of True answers over the positional item ranges 1-20, 21-24, 25 and
26-29 (both in the utils dictionary scorer and in the API positional scorer),
the ranges cover every item exactly once, and the four totals sum to the
total score, which is at most 29. -/
theorem claim_C7_srq29_partition :
    ∀ a : Fin 29 → Bool,
      (get_srq29_subscale_scores (srqForm 29 a)).anxiety_depression = trueCountIn 1 20 a ∧
      (get_srq29_subscale_scores (srqForm 29 a)).psychotic = trueCountIn 21 24 a ∧
      (get_srq29_subscale_scores (srqForm 29 a)).epileptic = trueCountIn 25 25 a ∧
      (get_srq29_subscale_scores (srqForm 29 a)).alcohol = trueCountIn 26 29 a ∧
      calculate_srq29_subscales ((List.finRange 29).map a) =
        Except.ok
          { anxiety_depression := trueCountIn 1 20 a, psychotic := trueCountIn 21 24 a,
            epilepsy := trueCountIn 25 25 a, alcohol := trueCountIn 26 29 a } ∧
      trueCountIn 1 20 a + trueCountIn 21 24 a + trueCountIn 25 25 a + trueCountIn 26 29 a =
        calculate_srq29_score (srqForm 29 a) ∧
      calculate_srq29_score (srqForm 29 a) ≤ 29 ∧
      (∀ i : Fin 29,
        ((if 1 ≤ i.1 + 1 ∧ i.1 + 1 ≤ 20 then 1 else 0) +
         (if 21 ≤ i.1 + 1 ∧ i.1 + 1 ≤ 24 then 1 else 0) +
         (if i.1 + 1 = 25 then 1 else 0) +
         (if 26 ≤ i.1 + 1 ∧ i.1 + 1 ≤ 29 then 1 else 0) : Nat) = 1) := by
  intro a
  refine ⟨srq29_ad_eq a, srq29_psychotic_eq a, srq29_epileptic_eq a, srq29_alcohol_eq a,
    api_srq29_subscales_eq a, ?_, ?_, by decide⟩
  · rw [srq29_total_eq]
    exact srq29_sum_eq a
  · rw [srq29_total_eq]
    exact trueCount_le 29 a

/-- C8: the referral flag stored with the SRQ-20 screening data is true
exactly when the count of True answers is at least 8; the vector of 8 True
then 12 False answers scores 8, is labelled Moderate mental distress, and
sets the flag. -/
theorem claim_C8_srq20_referral :
    (∀ a : Fin 20 → Bool,
      (page_srq20_referral_needed (srqForm 20 a) = true ↔ 8 ≤ trueCount a)) ∧
    (page_srq20_score (srqForm 20 srq20First8) = 8 ∧
     get_srq20_interpretation (page_srq20_score (srqForm 20 srq20First8)) =
       "Moderate mental distress" ∧
     page_srq20_referral_needed (srqForm 20 srq20First8) = true) := by
  constructor
  · intro a
    simp only [page_srq20_referral_needed, page_srq20_score_eq, decide_eq_true_eq]
  · exact ⟨by decide, by decide, by decide⟩

/-- C9: the canonical question bank lists 14 Depression, then 14 Anxiety,
then 14 Stress items, and on every 42-value answer vector the category-driven
API scorer computes exactly the positional-range totals of the utils scorer. -/
theorem claim_C9_dass42_category_positional_equal :
    (get_dass42_questions.map Prod.fst =
      List.replicate 14 "Depression" ++ List.replicate 14 "Anxiety" ++
        List.replicate 14 "Stress") ∧
    ∀ a : Fin 42 → Nat, (∀ i, a i ≤ 3) →
      calculate_dass42_subscales ((List.finRange 42).map a) get_dass42_questions =
        { depression := (calculate_dass42_scores (dassForm a)).1
          anxiety := (calculate_dass42_scores (dassForm a)).2.1
          stress := (calculate_dass42_scores (dassForm a)).2.2 } :=
  ⟨by decide, fun a _ => rfl⟩

/-- Witness for C9 at the all-3 answer vector. -/
theorem claim_C9_witness :
    calculate_dass42_subscales ((List.finRange 42).map (fun _ => 3)) get_dass42_questions =
      { depression := (calculate_dass42_scores (dassForm (fun _ => 3))).1
        anxiety := (calculate_dass42_scores (dassForm (fun _ => 3))).2.1
        stress := (calculate_dass42_scores (dassForm (fun _ => 3))).2.2 } :=
  claim_C9_dass42_category_positional_equal.2 (fun _ => 3) (fun _ => Nat.le_refl 3)

/-- C10: the DASS-42 scorer is total on answer dictionaries and treats a
missing item key as an answer of 0: scoring any dictionary equals scoring its
completion in which every key 1..42 is bound (missing ones to 0), and the
empty dictionary scores (0, 0, 0). -/
theorem claim_C10_dass42_missing_as_zero :
    ∀ answers : DassAnswers,
      calculate_dass42_scores answers = calculate_dass42_scores (completeDass answers) ∧
      calculate_dass42_scores ([] : DassAnswers) = (0, 0, 0) := by
  intro answers
  refine ⟨?_, by decide⟩
  unfold calculate_dass42_scores
  exact foldl_dassStep_congr _ _ (List.range' 1 42) (0, 0, 0)
    (fun i hi => (completeDass_lookup answers i hi).symm)
